import Mathlib

/-!
Verification of the NeoClip 302 generation orchestrator
(`src/api/generate.js`) against its natural-language specification.

The shallow embedding below mirrors the JavaScript source: provider
response probing is modelled over a small JSON value type with JavaScript
truthiness, the fallback dispatcher and the polling loop are modelled as
fuel-bounded recursions over an explicit environment supplying the HTTP
responses, and the API handler is modelled as a pure function that also
records the database writes it issues, in order.  Network endpoints, auth
headers, request bodies and wall-clock sleeping are not modelled: no
specification claim depends on them.
-/

namespace NeoClip

/-- JSON-like values, the shapes returned by the remote providers and
probed duck-typed by `generate.js`. -/
inductive JVal where
  | jnull
  | jbool (b : Bool)
  | jnum (n : Int)
  | jstr (s : String)
  | jarr (xs : List JVal)
  | jobj (fs : List (String × JVal))

/-- Field access, modelling the optional-chaining `response?.field`:
objects yield the field when present, everything else yields `none`
(JavaScript `undefined`). -/
def jget : JVal → String → Option JVal
  | .jobj fs, k => fs.lookup k
  | _, _ => none

/-- Optional chaining through an already-optional value, as in
`response?.a?.b`. -/
def ojget (o : Option JVal) (k : String) : Option JVal :=
  o.bind (fun v => jget v k)

/-- JavaScript truthiness of a possibly-undefined value: `undefined`,
`null`, `false`, `0` and the empty string are falsy, arrays and objects
are truthy. -/
def truthy : Option JVal → Bool
  | none => false
  | some .jnull => false
  | some (.jbool b) => b
  | some (.jnum n) => !(n == 0)
  | some (.jstr s) => !(s == "")
  | some (.jarr _) => true
  | some (.jobj _) => true

/-- JavaScript `a || b`: the left operand when truthy, otherwise the
right operand. -/
def jor (a b : Option JVal) : Option JVal :=
  if truthy a then a else b

/-- JavaScript strict equality of a probed value against a string
literal, as in `response?.status === "succeeded"`. -/
def jstrEq (v : Option JVal) (s : String) : Bool :=
  match v with
  | some (.jstr t) => t == s
  | _ => false

/-- The `status?.toLowerCase?.() || ""` idiom: lower-case a string
status, and collapse a missing or non-string status to the empty
string. -/
def lowerOrEmpty : Option JVal → String
  | some (.jstr s) => s.toLower
  | _ => ""

/-- A provider configuration from the `PROVIDERS` table of
`generate.js`: the pure response-mapping functions plus the static cost.
The endpoint URLs, credentials and request-body builders of the source
are not modelled. `hasResultUrl` records whether the provider defines a
`getResultUrl` secondary result endpoint (only FAL does). -/
structure Provider where
  name : String
  cost : ℚ
  extractTaskId : JVal → Option JVal
  extractVideoUrl : JVal → Option JVal
  isComplete : JVal → Bool
  isFailed : JVal → Bool
  hasResultUrl : Bool

/-- Replicate Wan-2.1, the `wan` entry of `PROVIDERS`. -/
def wanProvider : Provider where
  name := "Wan-2.1"
  cost := 0.0008
  extractTaskId := fun r => jor (jget r "id") (ojget (jget r "prediction") "id")
  extractVideoUrl := fun r =>
    let o := jget r "output"
    if truthy o then
      match o with
      | some (.jarr xs) => xs.head?
      | _ => o
    else none
  isComplete := fun r =>
    jstrEq (jget r "status") "succeeded" || jstrEq (jget r "status") "failed"
  isFailed := fun r =>
    jstrEq (jget r "status") "failed" || truthy (jget r "error")
  hasResultUrl := false

/-- FAL.ai, the `fal` entry of `PROVIDERS`. -/
def falProvider : Provider where
  name := "Pika-FAL"
  cost := 0
  extractTaskId := fun r =>
    jor (jget r "request_id") (jor (jget r "id") (jget r "task_id"))
  extractVideoUrl := fun r =>
    jor (ojget (jget r "video") "url")
      (jor (ojget (jget r "output") "video_url")
        (jor (jget r "video_url")
          (jor (ojget (ojget (jget r "result") "video") "url")
            (ojget (jget r "data") "video_url"))))
  isComplete := fun r =>
    let st := lowerOrEmpty (jget r "status")
    st == "completed" || st == "succeeded" || st == "ok"
  isFailed := fun r =>
    let st := lowerOrEmpty (jget r "status")
    st == "failed" || st == "error" || truthy (jget r "error")
  hasResultUrl := true

/-- PiAPI Luma, the `luma` entry of `PROVIDERS`.  The source lower-cases
`(response?.data?.status || response?.status || "")`; a truthy
non-string status would raise a TypeError in JavaScript, a case no
claim exercises, collapsed here to the empty string. -/
def lumaProvider : Provider where
  name := "Luma"
  cost := 0.20
  extractTaskId := fun r =>
    jor (ojget (jget r "data") "task_id") (jor (jget r "task_id") (jget r "id"))
  extractVideoUrl := fun r =>
    jor (ojget (ojget (jget r "data") "output") "video_url")
      (jor (ojget (jget r "data") "video_url")
        (jor (ojget (jget r "output") "video_url")
          (jor (jget r "video_url")
            (jor (ojget (ojget (jget r "data") "output") "video")
              (jget r "video")))))
  isComplete := fun r =>
    let st := lowerOrEmpty (jor (ojget (jget r "data") "status") (jget r "status"))
    st == "completed" || st == "succeeded" || st == "success"
  isFailed := fun r =>
    let st := lowerOrEmpty (jor (ojget (jget r "data") "status") (jget r "status"))
    st == "failed" || st == "error"
  hasResultUrl := false

/-- Keys of the `PROVIDERS` table. -/
inductive ProviderKey where
  | wan
  | fal
  | luma
deriving DecidableEq

/-- The `PROVIDERS` registry. -/
def PROVIDERS : ProviderKey → Provider
  | .wan => wanProvider
  | .fal => falProvider
  | .luma => lumaProvider

/-- The `free` fallback chain of `FALLBACK_CHAINS`. -/
def FALLBACK_CHAINS_free : List ProviderKey := [.wan, .fal]

/-- The `paid` fallback chain of `FALLBACK_CHAINS`. -/
def FALLBACK_CHAINS_paid : List ProviderKey := [.luma, .wan, .fal]

/-- Lookup in the `FALLBACK_CHAINS` object, which has exactly the keys
`free` and `paid`. -/
def fallbackChainOf (tier : String) : Option (List ProviderKey) :=
  if tier = "free" then some FALLBACK_CHAINS_free
  else if tier = "paid" then some FALLBACK_CHAINS_paid
  else none

/-- The chain selection `FALLBACK_CHAINS[tier] || FALLBACK_CHAINS.free`
at the top of `generateVideo`. -/
def chainFor (tier : String) : List ProviderKey :=
  (fallbackChainOf tier).getD FALLBACK_CHAINS_free

/-- Errors thrown by `createTask`, tagged the way the source tags
`error.code`; `netError` stands for a network failure rethrown by
`makeRequest`, which carries no code. -/
inductive CreateErr where
  | authError
  | rateLimited
  | clientError (status : Nat)
  | noTaskId
  | netError
deriving DecidableEq

/-- Outcome of one `createTask` call, classified from the raw HTTP
response exactly as the source does: 401/403 before 429 before generic
4xx, then task-id extraction with a truthiness check.  `none` models
`makeRequest` itself throwing. -/
def createTaskResult (p : ProviderKey) (resp : Option (Nat × JVal)) :
    Except CreateErr JVal :=
  match resp with
  | none => .error .netError
  | some (status, data) =>
    if status = 401 ∨ status = 403 then .error .authError
    else if status = 429 then .error .rateLimited
    else if 400 ≤ status ∧ status < 500 then .error (.clientError status)
    else
      let tid := (PROVIDERS p).extractTaskId data
      if truthy tid then .ok (tid.getD .jnull) else .error .noTaskId

/-- Environment for one iteration of the polling loop: the response of
the status request (`none` models a network throw) and, for FAL, the
response of the secondary result-endpoint request should it be made. -/
structure PollAttempt where
  resp : Option (Nat × JVal)
  resultResp : Option (Nat × JVal)

/-- Result of one iteration of the `pollTask` loop body. -/
inductive PollStepRes where
  | found (u : JVal)
  | authErr
  | cont

/-- The late fallthrough of the loop body: check for a video URL even if
the status is not complete (lines 330-335 of the source). -/
def foundOf (P : Provider) (data : JVal) : PollStepRes :=
  if truthy (P.extractVideoUrl data) then
    .found ((P.extractVideoUrl data).getD .jnull)
  else .cont

/-- One iteration of the `pollTask` loop body.  A `TaskFailed` throw and
a network throw are caught by the in-loop catch (their code is not
`AUTH_ERROR`) and polling continues; only 401/403 escape the loop. -/
def pollStep (p : ProviderKey) (a : PollAttempt) : PollStepRes :=
  let P := PROVIDERS p
  match a.resp with
  | none => .cont
  | some (status, data) =>
    if status = 401 ∨ status = 403 then .authErr
    else if P.isFailed data then .cont
    else if P.isComplete data then
      if truthy (P.extractVideoUrl data) then
        .found ((P.extractVideoUrl data).getD .jnull)
      else if P.hasResultUrl then
        match a.resultResp with
        | none => .cont
        | some (_, rdata) =>
          if truthy (P.extractVideoUrl rdata) then
            .found ((P.extractVideoUrl rdata).getD .jnull)
          else foundOf P data
      else foundOf P data
    else foundOf P data

/-- Final outcome of `pollTask`: a video URL, an `AUTH_ERROR` throw, or
the `Polling timeout after N attempts` throw. -/
inductive PollRes where
  | url (u : JVal)
  | authError
  | timeout

/-- The default `maxAttempts` of `pollTask`. -/
def MAX_POLL_ATTEMPTS : Nat := 30

/-- The `pollTask` loop: runs the loop body up to the given fuel,
threading the attempt index, and also counts the status requests
performed.  The source additionally sleeps `intervalMs` (default 4000)
before each request; time is not modelled. -/
def pollTaskAux (p : ProviderKey) (env : Nat → PollAttempt) :
    Nat → Nat → PollRes × Nat
  | _, 0 => (.timeout, 0)
  | i, fuel + 1 =>
    match pollStep p (env i) with
    | .found u => (.url u, 1)
    | .authErr => (.authError, 1)
    | .cont =>
      let r := pollTaskAux p env (i + 1) fuel
      (r.1, r.2 + 1)

/-- `pollTask(provider, taskId, createResponse, maxAttempts)`: the whole
polling loop, returning its outcome and the number of status checks it
performed. -/
def pollTask (p : ProviderKey) (env : Nat → PollAttempt) (maxAttempts : Nat) :
    PollRes × Nat :=
  pollTaskAux p env 0 maxAttempts

/-- Errors observed by the `generateVideo` retry loop, as caught by its
in-loop catch.  `error.code` is `AUTH_ERROR` exactly for
`fromCreate .authError` and `pollAuth`. -/
inductive GenErr where
  | fromCreate (e : CreateErr)
  | pollAuth
  | pollTimeout
deriving DecidableEq

/-- Environment of one `generateVideo` run: which providers have an API
key configured, the raw HTTP response each `createTask` call would get
(indexed by provider and retry number), and the polling environment each
`pollTask` call would see. -/
structure GenEnv where
  keys : ProviderKey → Bool
  createResp : ProviderKey → Nat → Option (Nat × JVal)
  pollEnv : ProviderKey → Nat → Nat → PollAttempt

/-- Observable events of a `generateVideo` run, in order: a `createTask`
invocation on a provider, a successful task creation (a task identifier
was returned by the remote provider), and the fixed pause taken before a
retry. -/
inductive Ev where
  | createCall (p : ProviderKey)
  | taskCreated (p : ProviderKey) (taskId : JVal)
  | retryPause

/-- The value returned by `generateVideo` on success. -/
structure GenSuccess where
  videoUrl : JVal
  provider : String
  cost : ℚ

/-- The per-provider retry budget (`for retry in 0..<2`). -/
def RETRIES_PER_PROVIDER : Nat := 2

/-- The inner `retry` loop of `generateVideo` for one provider: attempt
`createTask` then `pollTask`; on an `AUTH_ERROR` abandon the provider at
once, on any other caught error record it as the last error, pause when
a retry remains, and try again.  Returns the success value if any, the
updated last error, and the extended event trace. -/
def providerLoop (env : GenEnv) (p : ProviderKey) :
    Nat → Nat → Option GenErr → List Ev →
    Option GenSuccess × Option GenErr × List Ev
  | _, 0, lastErr, tr => (none, lastErr, tr)
  | retry, fuel + 1, lastErr, tr =>
    match createTaskResult p (env.createResp p retry) with
    | .ok tid =>
      match (pollTask p (env.pollEnv p retry) MAX_POLL_ATTEMPTS).1 with
      | .url u =>
        if truthy (some u) then
          (some { videoUrl := u, provider := (PROVIDERS p).name,
                  cost := (PROVIDERS p).cost },
           lastErr, tr ++ [Ev.createCall p, Ev.taskCreated p tid])
        else
          providerLoop env p (retry + 1) fuel lastErr
            (tr ++ [Ev.createCall p, Ev.taskCreated p tid])
      | .authError =>
        (none, some GenErr.pollAuth, tr ++ [Ev.createCall p, Ev.taskCreated p tid])
      | .timeout =>
        providerLoop env p (retry + 1) fuel (some GenErr.pollTimeout)
          ((tr ++ [Ev.createCall p, Ev.taskCreated p tid]) ++
            (if retry < 1 then [Ev.retryPause] else []))
    | .error ce =>
      if ce = CreateErr.authError then
        (none, some (GenErr.fromCreate ce), tr ++ [Ev.createCall p])
      else
        providerLoop env p (retry + 1) fuel (some (GenErr.fromCreate ce))
          ((tr ++ [Ev.createCall p]) ++ (if retry < 1 then [Ev.retryPause] else []))

/-- The outer provider loop of `generateVideo`: skip providers with no
configured key, run the retry loop on each candidate in chain order, and
stop at the first success.  When the chain is exhausted the last caught
error is thrown (`.error none` models the fresh
`All providers exhausted` error thrown when no error was ever caught). -/
def generateVideoAux (env : GenEnv) :
    List ProviderKey → Option GenErr → List Ev →
    Except (Option GenErr) GenSuccess × List Ev
  | [], lastErr, tr => (.error lastErr, tr)
  | p :: rest, lastErr, tr =>
    if env.keys p then
      match providerLoop env p 0 RETRIES_PER_PROVIDER lastErr tr with
      | (some s, _, tr2) => (.ok s, tr2)
      | (none, lastErr2, tr2) => generateVideoAux env rest lastErr2 tr2
    else
      generateVideoAux env rest lastErr tr

/-- `generateVideo(prompt, tier, length)`: select the fallback chain for
the tier and dispatch.  The prompt and length only shape the outbound
request bodies and are absorbed into the environment. -/
def generateVideo (env : GenEnv) (tier : String) :
    Except (Option GenErr) GenSuccess × List Ev :=
  generateVideoAux env (chainFor tier) none []

/-- A calendar date as JavaScript sees it (month is 0-based), at day
granularity: the handler only compares `now >= resetsAt` and builds the
first day of the following month. -/
structure JsDate where
  year : Int
  month : Nat
  day : Nat
deriving DecidableEq

/-- Chronological `a <= b` on dates (lexicographic on year, month,
day). -/
def JsDate.le (a b : JsDate) : Bool :=
  if a.year < b.year then true
  else if b.year < a.year then false
  else if a.month < b.month then true
  else if b.month < a.month then false
  else a.day ≤ b.day

/-- `new Date(now.getFullYear(), now.getMonth() + 1, 1)`: the first day
of the month after `d`, with JavaScript month normalization. -/
def nextMonthStart (d : JsDate) : JsDate :=
  if d.month + 1 ≥ 12 then { year := d.year + 1, month := 0, day := 1 }
  else { year := d.year, month := d.month + 1, day := 1 }

/-- The columns of the `users` row that the generation endpoint reads or
writes (`free_used`, `tier`, `resets_at`), plus `paid_used`, which the
schema declares for paid-usage tracking. -/
structure UserRow where
  free_used : Nat
  paid_used : Nat
  tier : String
  resets_at : JsDate

/-- The request body of `POST /api/generate`.  `none` fields model
absent properties, so the destructuring defaults `tier = "free"` and
`length = 10` apply to `none`. -/
structure GenRequest where
  prompt : Option String
  userId : Option String
  tier : Option String
  length : Option Int

/-- JavaScript `String.prototype.trim`: strip leading and trailing
whitespace. -/
def jsTrim (s : String) : String :=
  String.mk (((s.data.dropWhile Char.isWhitespace).reverse.dropWhile
    Char.isWhitespace).reverse)

/-- The `if (!prompt || typeof prompt !== "string" ||
prompt.trim().length === 0)` guard, as a validity test. -/
def promptValid : Option String → Bool
  | some s => !(jsTrim s == "")
  | none => false

/-- Truthiness of an optional string, for the `if (!userId)` guard. -/
def truthyOptStr : Option String → Bool
  | some s => !(s == "")
  | none => false

/-- Values appearing in a JSON response body.  `durationStr` stands for
an elapsed-time string computed from the wall clock, and `errMsg` for
the `message` rendered from a caught generation error; neither value is
modelled beyond its presence. -/
inductive RVal where
  | s (v : String)
  | n (v : Int)
  | b (v : Bool)
  | null
  | jv (v : JVal)
  | durationStr
  | errMsg (e : Option GenErr)

/-- The database writes the handler can issue, tagged by the `update` or
`insert` statement in the source that issues them. -/
inductive DbWrite where
  | monthlyReset (resetsAt : JsDate)
  | incFreeUsed (newVal : Nat)
  | rollbackFreeUsed (restored : Nat)
  | insertGeneration
deriving DecidableEq

/-- What a handler invocation produces: the HTTP status, the JSON body
as an ordered key-value list, and the database writes in issue order. -/
structure HandlerOut where
  status : Nat
  body : List (String × RVal)
  writes : List DbWrite

/-- The free-tier monthly quota (`FREE_LIMIT` in the source). -/
def FREE_LIMIT : Nat := 10

/-- The 402 remediation message, with `FREE_LIMIT` interpolated. -/
def free402Message : String :=
  "You\x27ve used all 10 free clips this month. Upgrade to Pro for unlimited HD clips!"

/-- The `/api/generate` handler.  Inputs: the HTTP method, the parsed
request body, the result of the `users` lookup (`none` covers both a
lookup error and a missing row), the current date, and the environment
feeding `generateVideo`.  Database writes are assumed to succeed; the
`insert` into `generations` has its errors swallowed by the source
itself. -/
def handler (method : String) (req : GenRequest) (userLookup : Option UserRow)
    (now : JsDate) (env : GenEnv) : HandlerOut :=
  if method = "OPTIONS" then { status := 200, body := [], writes := [] }
  else if method ≠ "POST" then
    { status := 405, body := [("error", RVal.s "Method not allowed")], writes := [] }
  else
    let tier := req.tier.getD "free"
    if promptValid req.prompt = false then
      { status := 400, body := [("error", RVal.s "Prompt is required")], writes := [] }
    else if truthyOptStr req.userId = false then
      { status := 400, body := [("error", RVal.s "User ID is required")], writes := [] }
    else
      match userLookup with
      | none => { status := 404, body := [("error", RVal.s "User not found")], writes := [] }
      | some user =>
        let doReset := JsDate.le user.resets_at now
        let fu := if doReset then 0 else user.free_used
        let resetWrites := if doReset then [DbWrite.monthlyReset (nextMonthStart now)] else []
        if tier = "free" ∧ FREE_LIMIT ≤ fu then
          { status := 402,
            body := [("error", RVal.s "Free limit reached"),
                     ("message", RVal.s free402Message),
                     ("freeUsed", RVal.n fu),
                     ("freeLimit", RVal.n FREE_LIMIT)],
            writes := resetWrites }
        else
          let originalUsage := fu
          let incWrites := if tier = "free" then [DbWrite.incFreeUsed (fu + 1)] else []
          match (generateVideo env tier).1 with
          | .ok result =>
            { status := 200,
              body := [("success", RVal.b true),
                       ("videoUrl", RVal.jv result.videoUrl),
                       ("tier", RVal.s tier),
                       ("model", RVal.s result.provider),
                       ("needsAd", RVal.b (tier == "free")),
                       ("remainingFree",
                         if tier = "free" then
                           RVal.n ((FREE_LIMIT : Int) - ((originalUsage : Int) + 1))
                         else RVal.null),
                       ("generationTime", RVal.durationStr)],
              writes := resetWrites ++ incWrites ++ [DbWrite.insertGeneration] }
          | .error e =>
            let rollbackWrites :=
              if tier = "free" then [DbWrite.rollbackFreeUsed originalUsage] else []
            { status := 500,
              body := [("error", RVal.s "Generation failed"),
                       ("message", RVal.errMsg e),
                       ("duration", RVal.durationStr)],
              writes := resetWrites ++ incWrites ++ rollbackWrites }

/-- Effect of one database write on the user row. -/
def applyWrite (u : UserRow) : DbWrite → UserRow
  | .monthlyReset d => { u with free_used := 0, resets_at := d }
  | .incFreeUsed n => { u with free_used := n }
  | .rollbackFreeUsed n => { u with free_used := n }
  | .insertGeneration => u

/-- Effect of a sequence of database writes on the user row. -/
def applyWrites (u : UserRow) (ws : List DbWrite) : UserRow :=
  ws.foldl applyWrite u

/-- Recognize the quota-rollback write. -/
def DbWrite.isRollback : DbWrite → Bool
  | .rollbackFreeUsed _ => true
  | _ => false

/-- Recognize the quota-increment write. -/
def DbWrite.isIncFree : DbWrite → Bool
  | .incFreeUsed _ => true
  | _ => false

/-- Whether a handler invocation executed the rollback write. -/
def rollbackFired (o : HandlerOut) : Bool :=
  o.writes.any DbWrite.isRollback

/-- Whether a `generateVideo` outcome is a throw. -/
def genFailed : Except (Option GenErr) GenSuccess → Bool
  | .error _ => true
  | .ok _ => false

/-- Recognize a successful task creation event. -/
def Ev.isTaskCreated : Ev → Bool
  | .taskCreated _ _ => true
  | _ => false

/-- Recognize a `createTask` invocation on a given provider. -/
def Ev.isCreateCallOn (p : ProviderKey) : Ev → Bool
  | .createCall q => p == q
  | _ => false

/-- Number of `createTask` invocations on a provider in a trace. -/
def countCreateCalls (p : ProviderKey) (tr : List Ev) : Nat :=
  tr.countP (Ev.isCreateCallOn p)

/-- A polling environment whose status never leaves `processing`. -/
def processingEnv : Nat → PollAttempt :=
  fun _ => { resp := some (200, .jobj [("status", .jstr "processing")]),
             resultResp := none }

/-- A polling environment whose responses report `succeeded` and carry a
result URL in the Replicate shape. -/
def readyEnv : Nat → PollAttempt :=
  fun _ => { resp := some (200, .jobj
               [("status", .jstr "succeeded"),
                ("output", .jarr [.jstr "https://cdn.example/video.mp4"])]),
             resultResp := none }

/-- A polling environment whose responses report raw status `succeeded`
with no extractable URL anywhere. -/
def succeededNoUrlEnv : Nat → PollAttempt :=
  fun _ => { resp := some (200, .jobj [("status", .jstr "succeeded")]),
             resultResp := none }

/-- Only Wan is configured; its task creation succeeds with a task id,
but polling never produces a URL. -/
def envTaskNoUrl : GenEnv where
  keys := fun p => p == ProviderKey.wan
  createResp := fun _ _ => some (201, .jobj [("id", .jstr "task-1")])
  pollEnv := fun _ _ => processingEnv

/-- All providers configured; Wan returns a task id but its polls stay
at `processing`; every other provider rejects creation with a 404. -/
def envPollFailFallback : GenEnv where
  keys := fun _ => true
  createResp := fun p _ =>
    match p with
    | .wan => some (201, .jobj [("id", .jstr "task-1")])
    | _ => some (404, .jobj [])
  pollEnv := fun _ _ => processingEnv

/-- All providers configured and every creation attempt is rejected with
a plain 404 client error. -/
def envClient404 : GenEnv where
  keys := fun _ => true
  createResp := fun _ _ => some (404, .jobj [])
  pollEnv := fun _ _ => processingEnv

/-- Only Wan is configured and it succeeds end to end: creation returns
a task id and the first poll yields the video URL. -/
def envSuccess : GenEnv where
  keys := fun p => p == ProviderKey.wan
  createResp := fun _ _ => some (201, .jobj [("id", .jstr "task-1")])
  pollEnv := fun _ _ => readyEnv

/-- A well-formed free-tier request body. -/
def sampleReq : GenRequest :=
  { prompt := some "sunset timelapse", userId := some "u1",
    tier := some "free", length := some 10 }

/-- The same request on the `pro` tier. -/
def proReq : GenRequest :=
  { prompt := some "sunset timelapse", userId := some "u1",
    tier := some "pro", length := some 10 }

/-- A current date strictly before the reset date below. -/
def sampleNow : JsDate := { year := 2025, month := 0, day := 15 }

/-- A fresh free-tier user: quota untouched, resets on 2025-02-01. -/
def sampleUser : UserRow :=
  { free_used := 0, paid_used := 5, tier := "free",
    resets_at := { year := 2025, month := 1, day := 1 } }

/-- A user at the free-tier limit. -/
def maxedUser : UserRow :=
  { free_used := 10, paid_used := 5, tier := "free",
    resets_at := { year := 2025, month := 1, day := 1 } }

/-- Truthiness survives discharging the option with a null default. -/
theorem truthy_getD (o : Option JVal) (h : truthy o = true) :
    truthy (some (o.getD .jnull)) = true := by
  cases o with
  | none => simp [truthy] at h
  | some v => exact h

/-- The late fallthrough only reports truthy URLs. -/
theorem foundOf_truthy (P : Provider) (d u : JVal)
    (h : foundOf P d = .found u) : truthy (some u) = true := by
  unfold foundOf at h
  split at h
  · rename_i ht
    injection h with h
    subst h
    exact truthy_getD _ ht
  · exact PollStepRes.noConfusion h

/-- A loop-body iteration only reports truthy URLs. -/
theorem pollStep_found_truthy (p : ProviderKey) (a : PollAttempt) (u : JVal)
    (h : pollStep p a = .found u) : truthy (some u) = true := by
  rcases a with ⟨resp, rres⟩
  cases resp with
  | none => exact PollStepRes.noConfusion h
  | some sd =>
    rcases sd with ⟨status, data⟩
    simp only [pollStep] at h
    split at h
    · exact PollStepRes.noConfusion h
    · split at h
      · exact PollStepRes.noConfusion h
      · split at h
        · split at h
          · rename_i ht
            injection h with h
            subst h
            exact truthy_getD _ ht
          · split at h
            · cases rres with
              | none => exact PollStepRes.noConfusion h
              | some rsd =>
                rcases rsd with ⟨rs, rdata⟩
                simp only at h
                split at h
                · rename_i ht
                  injection h with h
                  subst h
                  exact truthy_getD _ ht
                · exact foundOf_truthy _ _ _ h
            · exact foundOf_truthy _ _ _ h
        · exact foundOf_truthy _ _ _ h

/-- The polling loop only returns truthy URLs. -/
theorem pollTaskAux_url_truthy (p : ProviderKey) (env : Nat → PollAttempt) :
    ∀ fuel i u, (pollTaskAux p env i fuel).1 = .url u → truthy (some u) = true := by
  intro fuel
  induction fuel with
  | zero => intro i u h; exact PollRes.noConfusion h
  | succ n ih =>
    intro i u h
    simp only [pollTaskAux] at h
    cases hs : pollStep p (env i) with
    | found v =>
      rw [hs] at h
      simp only at h
      injection h with h
      subst h
      exact pollStep_found_truthy _ _ _ hs
    | authErr =>
      rw [hs] at h
      exact PollRes.noConfusion h
    | cont =>
      rw [hs] at h
      simp only at h
      exact ih (i + 1) u h

/-- When the polling loop times out it has spent its whole budget. -/
theorem pollTaskAux_timeout_count (p : ProviderKey) (env : Nat → PollAttempt) :
    ∀ fuel i, (pollTaskAux p env i fuel).1 = .timeout →
      (pollTaskAux p env i fuel).2 = fuel := by
  intro fuel
  induction fuel with
  | zero => intro i _; rfl
  | succ n ih =>
    intro i h
    simp only [pollTaskAux] at h ⊢
    cases hs : pollStep p (env i) with
    | found v =>
      rw [hs] at h
      simp only at h
      exact PollRes.noConfusion h
    | authErr =>
      rw [hs] at h
      simp only at h
      exact PollRes.noConfusion h
    | cont =>
      rw [hs] at h
      simp only at h ⊢
      rw [ih (i + 1) h]

/-- The generation endpoint never writes the `paid_used` column. -/
theorem applyWrites_paid_used (ws : List DbWrite) :
    ∀ u : UserRow, (applyWrites u ws).paid_used = u.paid_used := by
  induction ws with
  | nil => intro u; rfl
  | cons w ws ih =>
    intro u
    show (applyWrites (applyWrite u w) ws).paid_used = u.paid_used
    rw [ih]
    cases w <;> rfl

/-- One iteration of the retry loop performs exactly one `createTask`
invocation, whatever its outcome. -/
theorem providerLoop_one_count (env : GenEnv) (p : ProviderKey) (retry : Nat)
    (lastErr : Option GenErr) (tr : List Ev) :
    countCreateCalls p (providerLoop env p retry 1 lastErr tr).2.2 =
      countCreateCalls p tr + 1 := by
  simp only [providerLoop]
  cases hc : createTaskResult p (env.createResp p retry) with
  | ok tid =>
    cases hp : (pollTask p (env.pollEnv p retry) MAX_POLL_ATTEMPTS).1 with
    | url u =>
      by_cases ht : truthy (some u) = true
      · simp [ht, countCreateCalls, List.countP_append, List.countP_cons,
          Ev.isCreateCallOn]
      · simp only [eq_self_iff_true] at ht
        simp [ht, providerLoop, countCreateCalls, List.countP_append,
          List.countP_cons, Ev.isCreateCallOn]
    | authError =>
      simp [countCreateCalls, List.countP_append, List.countP_cons,
        Ev.isCreateCallOn]
    | timeout =>
      by_cases hr : retry < 1 <;>
        simp [hr, providerLoop, countCreateCalls, List.countP_append,
          List.countP_cons, Ev.isCreateCallOn]
  | error ce =>
    by_cases hce : ce = CreateErr.authError
    · simp [hce, countCreateCalls, List.countP_append, List.countP_cons,
        Ev.isCreateCallOn]
    · by_cases hr : retry < 1 <;>
        simp [hce, hr, providerLoop, countCreateCalls, List.countP_append,
          List.countP_cons, Ev.isCreateCallOn]

/-- C10: for every creation request whose tier is any value other than
`free` or `paid` — including the spec tier names `basic`, `pro` and
`enterprise` — `generateVideo` selects the free-tier fallback chain
`[wan, fal]`, not a paid chain. -/
theorem C10_unknown_tier_uses_free_chain (tier : String)
    (h1 : tier ≠ "free") (h2 : tier ≠ "paid") :
    chainFor tier = [ProviderKey.wan, ProviderKey.fal] := by
  simp [chainFor, fallbackChainOf, h1, h2, FALLBACK_CHAINS_free]

/-- Witness for C10 at the concrete tier `pro`. -/
theorem C10_unknown_tier_uses_free_chain_witness :
    ("pro" : String) ≠ "free" ∧ ("pro" : String) ≠ "paid" ∧
      chainFor "pro" = [ProviderKey.wan, ProviderKey.fal] :=
  ⟨by decide, by decide,
   C10_unknown_tier_uses_free_chain "pro" (by decide) (by decide)⟩

/-- C5 counterexample: one invocation of `pollTask` on a task whose
status stays `processing` performs 30 remote status checks, not exactly
one — the loop and the sleeps live inside `pollTask`, not in the
caller. -/
theorem C5_single_check_cex :
    (pollTask ProviderKey.wan processingEnv MAX_POLL_ATTEMPTS).2 = 30 ∧
    (pollTask ProviderKey.wan processingEnv MAX_POLL_ATTEMPTS).2 ≠ 1 := by
  exact ⟨rfl, by decide⟩

/-- C5 amended: each `pollTask` invocation loops internally, performing
remote status checks until a URL or auth error is seen; when it gives up
with the timeout error it has performed exactly `maxAttempts` (default
30) checks in that single invocation. -/
theorem C5_poller_loops_internally (p : ProviderKey) (env : Nat → PollAttempt)
    (maxAttempts : Nat)
    (h : (pollTask p env maxAttempts).1 = PollRes.timeout) :
    (pollTask p env maxAttempts).2 = maxAttempts :=
  pollTaskAux_timeout_count p env maxAttempts 0 h

/-- Witness for the amended C5 on the always-processing environment. -/
theorem C5_poller_loops_internally_witness :
    (pollTask ProviderKey.wan processingEnv MAX_POLL_ATTEMPTS).1 = PollRes.timeout ∧
    (pollTask ProviderKey.wan processingEnv MAX_POLL_ATTEMPTS).2 = MAX_POLL_ATTEMPTS :=
  ⟨rfl, C5_poller_loops_internally ProviderKey.wan processingEnv MAX_POLL_ATTEMPTS rfl⟩

/-- C4: `pollTask` reports success only together with a truthy (hence
non-empty) result URL, and on a provider response whose raw status is
`succeeded` with no extractable URL the loop body keeps the task in the
continue-polling state, so `pollTask` keeps polling and degrades to the
timeout failure only after the full retry budget of 30 checks. -/
theorem C4_completed_requires_url (p : ProviderKey) (env : Nat → PollAttempt)
    (m : Nat) (u : JVal) (h : (pollTask p env m).1 = PollRes.url u) :
    truthy (some u) = true ∧
    pollStep ProviderKey.wan (succeededNoUrlEnv 0) = PollStepRes.cont ∧
    (pollTask ProviderKey.wan succeededNoUrlEnv MAX_POLL_ATTEMPTS).1 = PollRes.timeout ∧
    (pollTask ProviderKey.wan succeededNoUrlEnv MAX_POLL_ATTEMPTS).2 = MAX_POLL_ATTEMPTS :=
  ⟨pollTaskAux_url_truthy p env m 0 u h, rfl, rfl, rfl⟩

/-- Witness for C4 on an environment whose first poll carries the
result URL. -/
theorem C4_completed_requires_url_witness :
    (pollTask ProviderKey.wan readyEnv MAX_POLL_ATTEMPTS).1 =
      PollRes.url (JVal.jstr "https://cdn.example/video.mp4") ∧
    truthy (some (JVal.jstr "https://cdn.example/video.mp4")) = true :=
  ⟨rfl, (C4_completed_requires_url ProviderKey.wan readyEnv MAX_POLL_ATTEMPTS
    (JVal.jstr "https://cdn.example/video.mp4") rfl).1⟩

/-- C6: when a provider's creation call returns HTTP 401 or 403, the
retry loop is abandoned after that single `createTask` invocation — no
retry, no pause — and dispatch proceeds directly to the remaining
candidates of the chain. -/
theorem C6_auth_error_advances_immediately (env : GenEnv) (p : ProviderKey)
    (rest : List ProviderKey) (lastErr : Option GenErr) (tr : List Ev)
    (s : Nat) (d : JVal)
    (hk : env.keys p = true)
    (hresp : env.createResp p 0 = some (s, d))
    (hs : s = 401 ∨ s = 403) :
    generateVideoAux env (p :: rest) lastErr tr =
      generateVideoAux env rest (some (GenErr.fromCreate CreateErr.authError))
        (tr ++ [Ev.createCall p]) := by
  have hc : createTaskResult p (env.createResp p 0) =
      .error CreateErr.authError := by
    rw [hresp]
    simp only [createTaskResult]
    rw [if_pos hs]
  simp [generateVideoAux, hk, RETRIES_PER_PROVIDER, providerLoop, hc]

/-- Witness for C6: Wan answers 401, so Wan is tried exactly once and
the dispatcher moves on to FAL. -/
theorem C6_auth_error_advances_immediately_witness :
    generateVideoAux
        { keys := fun _ => true,
          createResp := fun _ _ => some (401, JVal.jobj []),
          pollEnv := fun _ _ => processingEnv }
        [ProviderKey.wan, ProviderKey.fal] none [] =
      generateVideoAux
        { keys := fun _ => true,
          createResp := fun _ _ => some (401, JVal.jobj []),
          pollEnv := fun _ _ => processingEnv }
        [ProviderKey.fal] (some (GenErr.fromCreate CreateErr.authError))
        ([] ++ [Ev.createCall ProviderKey.wan]) :=
  C6_auth_error_advances_immediately _ ProviderKey.wan [ProviderKey.fal] none []
    401 (JVal.jobj []) rfl rfl (Or.inl rfl)

/-- C7 counterexample: when Wan rejects creation with a plain 404 (a
non-auth, non-429 client error) the dispatcher does retry it — two
`createTask` invocations are consumed on Wan before advancing — contrary
to the claim that no second attempt is consumed. -/
theorem C7_client_error_retried_cex :
    countCreateCalls ProviderKey.wan (generateVideo envClient404 "free").2 = 2 ∧
    countCreateCalls ProviderKey.wan (generateVideo envClient404 "free").2 ≠ 1 :=
  ⟨rfl, by decide⟩

/-- C7 amended: a 4xx creation status other than 401/403/429 throws
`CLIENT_ERROR`, which the retry loop does not treat as fatal for the
provider: the dispatcher records it, pauses, and consumes the second
attempt on the same provider (two `createTask` invocations in total)
before advancing to the next candidate. -/
theorem C7_client_error_consumes_retry (env : GenEnv) (p : ProviderKey)
    (lastErr : Option GenErr) (tr : List Ev) (s : Nat) (d : JVal)
    (hresp : env.createResp p 0 = some (s, d))
    (h4 : 400 ≤ s) (h5 : s < 500)
    (hn1 : s ≠ 401) (hn3 : s ≠ 403) (hn9 : s ≠ 429) :
    providerLoop env p 0 RETRIES_PER_PROVIDER lastErr tr =
      providerLoop env p 1 1 (some (GenErr.fromCreate (CreateErr.clientError s)))
        (tr ++ [Ev.createCall p, Ev.retryPause]) ∧
    countCreateCalls p (providerLoop env p 0 RETRIES_PER_PROVIDER lastErr tr).2.2 =
      countCreateCalls p tr + 2 := by
  have hc : createTaskResult p (env.createResp p 0) =
      .error (CreateErr.clientError s) := by
    rw [hresp]
    simp only [createTaskResult]
    rw [if_neg (by rintro (h | h) <;> [exact hn1 h; exact hn3 h]),
      if_neg hn9, if_pos ⟨h4, h5⟩]
  have heq : providerLoop env p 0 RETRIES_PER_PROVIDER lastErr tr =
      providerLoop env p 1 1 (some (GenErr.fromCreate (CreateErr.clientError s)))
        (tr ++ [Ev.createCall p, Ev.retryPause]) := by
    show providerLoop env p 0 (1 + 1) lastErr tr = _
    rw [providerLoop]
    rw [hc]
    simp
  refine ⟨heq, ?_⟩
  rw [heq, providerLoop_one_count]
  simp [countCreateCalls, List.countP_append, List.countP_cons, Ev.isCreateCallOn]

/-- Witness for the amended C7 at a concrete 404 environment. -/
theorem C7_client_error_consumes_retry_witness :
    countCreateCalls ProviderKey.wan
        (providerLoop envClient404 ProviderKey.wan 0 RETRIES_PER_PROVIDER none []).2.2 =
      countCreateCalls ProviderKey.wan ([] : List Ev) + 2 :=
  (C7_client_error_consumes_retry envClient404 ProviderKey.wan none [] 404
    (JVal.jobj []) rfl (by decide) (by decide) (by decide) (by decide) (by decide)).2

/-- C8 counterexample: Wan's creation call returns 2xx with a task
identifier, yet dispatch does not stop there — its polling times out,
and the later candidate FAL is contacted afterwards. -/
theorem C8_task_created_chain_continues_cex :
    ((generateVideo envPollFailFallback "free").2.any Ev.isTaskCreated = true) ∧
    ((generateVideo envPollFailFallback "free").2.any
        (Ev.isCreateCallOn ProviderKey.fal) = true) :=
  ⟨rfl, rfl⟩

/-- C8 amended: the chain stops only on end-to-end success.  When the
first candidate both returns a task identifier and its polling yields a
video URL, dispatch returns immediately and no remaining candidate is
ever contacted; task creation alone, with failed polling, does not stop
the chain. -/
theorem C8_chain_stops_on_full_success (env : GenEnv) (p : ProviderKey)
    (rest : List ProviderKey) (lastErr : Option GenErr) (tr : List Ev)
    (tid u : JVal)
    (hk : env.keys p = true)
    (hc : createTaskResult p (env.createResp p 0) = .ok tid)
    (hp : (pollTask p (env.pollEnv p 0) MAX_POLL_ATTEMPTS).1 = PollRes.url u) :
    generateVideoAux env (p :: rest) lastErr tr =
      (.ok { videoUrl := u, provider := (PROVIDERS p).name,
             cost := (PROVIDERS p).cost },
       tr ++ [Ev.createCall p, Ev.taskCreated p tid]) := by
  have ht : truthy (some u) = true :=
    pollTaskAux_url_truthy p (env.pollEnv p 0) MAX_POLL_ATTEMPTS 0 u hp
  simp [generateVideoAux, hk, RETRIES_PER_PROVIDER, providerLoop, hc, hp, ht]

/-- Witness for the amended C8: a healthy Wan serves the request and FAL
never appears in the trace. -/
theorem C8_chain_stops_on_full_success_witness :
    generateVideoAux envSuccess [ProviderKey.wan, ProviderKey.fal] none [] =
      (.ok { videoUrl := JVal.jstr "https://cdn.example/video.mp4",
             provider := "Wan-2.1", cost := 0.0008 },
       [Ev.createCall ProviderKey.wan,
        Ev.taskCreated ProviderKey.wan (JVal.jstr "task-1")]) :=
  C8_chain_stops_on_full_success envSuccess ProviderKey.wan [ProviderKey.fal]
    none [] (JVal.jstr "task-1") (JVal.jstr "https://cdn.example/video.mp4")
    rfl rfl rfl

/-- C3: on a valid free-tier creation request, with `fu` the post-reset
`free_used` value, the endpoint answers 402 — with the remediation
message and the `freeUsed` / `freeLimit` fields — exactly when
`fu >= 10`, leaving the user row untouched; the request is allowed iff
`fu < 10`, and on allow the quota write stores `fu + 1` while every
rollback write that could follow restores exactly the pre-increment
value `fu`. -/
theorem C3_free_quota_guard (req : GenRequest) (user : UserRow) (now : JsDate)
    (env : GenEnv) (fu : Nat)
    (hp : promptValid req.prompt = true)
    (hu : truthyOptStr req.userId = true)
    (ht : req.tier.getD "free" = "free")
    (hfu : fu = if JsDate.le user.resets_at now then 0 else user.free_used) :
    ((handler "POST" req (some user) now env).status = 402 ↔ FREE_LIMIT ≤ fu) ∧
    (FREE_LIMIT ≤ fu →
      (handler "POST" req (some user) now env).body =
        [("error", RVal.s "Free limit reached"),
         ("message", RVal.s free402Message),
         ("freeUsed", RVal.n fu),
         ("freeLimit", RVal.n FREE_LIMIT)] ∧
      applyWrites user (handler "POST" req (some user) now env).writes = user) ∧
    (fu < FREE_LIMIT →
      DbWrite.incFreeUsed (fu + 1) ∈ (handler "POST" req (some user) now env).writes ∧
      (∀ n, DbWrite.rollbackFreeUsed n ∈
          (handler "POST" req (some user) now env).writes → n = fu)) := by
  subst hfu
  by_cases hr : JsDate.le user.resets_at now
  · have hq : ¬ FREE_LIMIT ≤ (0 : Nat) := by decide
    cases hg : (generateVideo env "free").1 with
    | ok res =>
      simp [handler, hp, hu, ht, hr, hq, hg, applyWrites, FREE_LIMIT]
    | error e =>
      simp [handler, hp, hu, ht, hr, hq, hg, applyWrites, FREE_LIMIT]
  · by_cases hq : FREE_LIMIT ≤ user.free_used
    · simp [handler, hp, hu, ht, hr, hq, applyWrites]
    · cases hg : (generateVideo env "free").1 with
      | ok res =>
        simp [handler, hp, hu, ht, hr, hq, hg, applyWrites]
      | error e =>
        simp [handler, hp, hu, ht, hr, hq, hg, applyWrites]

/-- Witness for C3 at the quota limit: a valid free request by a user
with `free_used = 10` before its reset date. -/
theorem C3_free_quota_guard_witness :
    ((handler "POST" sampleReq (some maxedUser) sampleNow envSuccess).status = 402 ↔
      FREE_LIMIT ≤ (10 : Nat)) ∧
    (FREE_LIMIT ≤ (10 : Nat) →
      (handler "POST" sampleReq (some maxedUser) sampleNow envSuccess).body =
        [("error", RVal.s "Free limit reached"),
         ("message", RVal.s free402Message),
         ("freeUsed", RVal.n (10 : Nat)),
         ("freeLimit", RVal.n FREE_LIMIT)] ∧
      applyWrites maxedUser
        (handler "POST" sampleReq (some maxedUser) sampleNow envSuccess).writes =
        maxedUser) ∧
    ((10 : Nat) < FREE_LIMIT →
      DbWrite.incFreeUsed ((10 : Nat) + 1) ∈
        (handler "POST" sampleReq (some maxedUser) sampleNow envSuccess).writes ∧
      (∀ n, DbWrite.rollbackFreeUsed n ∈
          (handler "POST" sampleReq (some maxedUser) sampleNow envSuccess).writes →
        n = 10)) :=
  C3_free_quota_guard sampleReq maxedUser sampleNow envSuccess 10
    (by decide) (by decide) rfl (by decide)

/-- C2 counterexample: a valid free-tier request that succeeds end to
end gets a 200 whose body has none of the claimed asynchronous-handle
fields — no `status`, no `generationId`, no `pollUrl`, no
`estimatedTime` — and already carries the final `videoUrl`: the response
is produced after the video is ready, not before. -/
theorem C2_async_response_cex :
    (handler "POST" sampleReq (some sampleUser) sampleNow envSuccess).status = 200 ∧
    (handler "POST" sampleReq (some sampleUser) sampleNow envSuccess).body.lookup
      "status" = none ∧
    (handler "POST" sampleReq (some sampleUser) sampleNow envSuccess).body.lookup
      "generationId" = none ∧
    (handler "POST" sampleReq (some sampleUser) sampleNow envSuccess).body.lookup
      "pollUrl" = none ∧
    (handler "POST" sampleReq (some sampleUser) sampleNow envSuccess).body.lookup
      "estimatedTime" = none ∧
    (handler "POST" sampleReq (some sampleUser) sampleNow envSuccess).body.lookup
      "videoUrl" =
      some (RVal.jv (JVal.jstr "https://cdn.example/video.mp4")) :=
  ⟨rfl, rfl, rfl, rfl, rfl, rfl⟩

/-- C2 amended: for every valid creation request whose dispatch
succeeds, the endpoint answers 200 only after the generation pipeline
has completed, with the synchronous body `success`, `videoUrl`, `tier`,
`model`, `needsAd`, `remainingFree` (null for non-free tiers) and
`generationTime`; there is no processing status, generation id, poll URL
or estimated time in the response. -/
theorem C2_success_response_shape (req : GenRequest) (user : UserRow)
    (now : JsDate) (env : GenEnv) (res : GenSuccess) (fu : Nat)
    (hp : promptValid req.prompt = true)
    (hu : truthyOptStr req.userId = true)
    (hfu : fu = if JsDate.le user.resets_at now then 0 else user.free_used)
    (hq : req.tier.getD "free" = "free" → fu < FREE_LIMIT)
    (hg : (generateVideo env (req.tier.getD "free")).1 = .ok res) :
    (handler "POST" req (some user) now env).status = 200 ∧
    (handler "POST" req (some user) now env).body =
      [("success", RVal.b true),
       ("videoUrl", RVal.jv res.videoUrl),
       ("tier", RVal.s (req.tier.getD "free")),
       ("model", RVal.s res.provider),
       ("needsAd", RVal.b (req.tier.getD "free" == "free")),
       ("remainingFree",
         if req.tier.getD "free" = "free" then
           RVal.n ((FREE_LIMIT : Int) - ((fu : Int) + 1))
         else RVal.null),
       ("generationTime", RVal.durationStr)] := by
  subst hfu
  by_cases ht : req.tier.getD "free" = "free"
  · have hq2 := hq ht
    rw [ht] at hg
    by_cases hr : JsDate.le user.resets_at now
    · simp [hr] at hq2
      simp [handler, hp, hu, ht, hr, hg, FREE_LIMIT]
    · simp [hr] at hq2
      have hq3 : ¬ (10 : Nat) ≤ user.free_used := by
        simp [FREE_LIMIT] at hq2
        omega
      simp [handler, hp, hu, ht, hr, hg, hq3, FREE_LIMIT]
  · by_cases hr : JsDate.le user.resets_at now <;>
      simp [handler, hp, hu, ht, hr, hg]

/-- Witness for the amended C2 on a concrete healthy run. -/
theorem C2_success_response_shape_witness :
    (handler "POST" sampleReq (some sampleUser) sampleNow envSuccess).status = 200 ∧
    (handler "POST" sampleReq (some sampleUser) sampleNow envSuccess).body =
      [("success", RVal.b true),
       ("videoUrl", RVal.jv (JVal.jstr "https://cdn.example/video.mp4")),
       ("tier", RVal.s "free"),
       ("model", RVal.s "Wan-2.1"),
       ("needsAd", RVal.b true),
       ("remainingFree", RVal.n 9),
       ("generationTime", RVal.durationStr)] :=
  C2_success_response_shape sampleReq sampleUser sampleNow envSuccess
    { videoUrl := JVal.jstr "https://cdn.example/video.mp4",
      provider := "Wan-2.1", cost := 0.0008 }
    0 (by decide) (by decide) (by decide) (fun _ => by decide) rfl

/-- C1 counterexample: Wan successfully returns a task identifier (the
remote task exists), its polling then times out, and the handler still
executes the quota rollback write — contradicting the claim that the
rollback never executes once some provider returned a task id. -/
theorem C1_rollback_after_task_created_cex :
    ((generateVideo envTaskNoUrl "free").2.any Ev.isTaskCreated = true) ∧
    rollbackFired
      (handler "POST" sampleReq (some sampleUser) sampleNow envTaskNoUrl) = true :=
  ⟨rfl, rfl⟩

/-- C1 amended: the rollback write fires exactly when the request is
free-tier and `generateVideo` threw — that is, when no video URL was
obtained — regardless of whether a remote task had been created along
the way; it fires exactly once in that case and never on success or on
non-free tiers. -/
theorem C1_rollback_iff_no_video (req : GenRequest) (user : UserRow)
    (now : JsDate) (env : GenEnv) (fu : Nat)
    (hp : promptValid req.prompt = true)
    (hu : truthyOptStr req.userId = true)
    (hfu : fu = if JsDate.le user.resets_at now then 0 else user.free_used)
    (hq : req.tier.getD "free" = "free" → fu < FREE_LIMIT) :
    (rollbackFired (handler "POST" req (some user) now env) = true ↔
      (req.tier.getD "free" = "free" ∧
        genFailed (generateVideo env (req.tier.getD "free")).1 = true)) ∧
    (handler "POST" req (some user) now env).writes.countP DbWrite.isRollback =
      (if req.tier.getD "free" = "free" ∧
          genFailed (generateVideo env (req.tier.getD "free")).1 = true
        then 1 else 0) := by
  subst hfu
  by_cases ht : req.tier.getD "free" = "free"
  · have hq2 := hq ht
    rw [ht]
    by_cases hr : JsDate.le user.resets_at now
    · simp [hr] at hq2
      cases hg : (generateVideo env "free").1 with
      | ok res =>
        simp [handler, hp, hu, ht, hr, hg, FREE_LIMIT, rollbackFired, genFailed,
          DbWrite.isRollback, List.countP_append, List.countP_cons]
      | error e =>
        simp [handler, hp, hu, ht, hr, hg, FREE_LIMIT, rollbackFired, genFailed,
          DbWrite.isRollback, List.countP_append, List.countP_cons]
    · simp [hr] at hq2
      have hq3 : ¬ (10 : Nat) ≤ user.free_used := by
        simp [FREE_LIMIT] at hq2
        omega
      cases hg : (generateVideo env "free").1 with
      | ok res =>
        simp [handler, hp, hu, ht, hr, hg, hq3, FREE_LIMIT, rollbackFired, genFailed,
          DbWrite.isRollback, List.countP_append, List.countP_cons]
      | error e =>
        simp [handler, hp, hu, ht, hr, hg, hq3, FREE_LIMIT, rollbackFired, genFailed,
          DbWrite.isRollback, List.countP_append, List.countP_cons]
  · by_cases hr : JsDate.le user.resets_at now <;>
      cases hg : (generateVideo env (req.tier.getD "free")).1 <;>
      simp [handler, hp, hu, ht, hr, hg, rollbackFired, genFailed,
        DbWrite.isRollback, List.countP_append, List.countP_cons]

/-- Witness for the amended C1 on the created-then-timed-out run. -/
theorem C1_rollback_iff_no_video_witness :
    (rollbackFired
        (handler "POST" sampleReq (some sampleUser) sampleNow envTaskNoUrl) = true ↔
      (sampleReq.tier.getD "free" = "free" ∧
        genFailed (generateVideo envTaskNoUrl (sampleReq.tier.getD "free")).1 = true)) ∧
    (handler "POST" sampleReq (some sampleUser) sampleNow envTaskNoUrl).writes.countP
        DbWrite.isRollback =
      (if sampleReq.tier.getD "free" = "free" ∧
          genFailed (generateVideo envTaskNoUrl (sampleReq.tier.getD "free")).1 = true
        then 1 else 0) :=
  C1_rollback_iff_no_video sampleReq sampleUser sampleNow envTaskNoUrl 0
    (by decide) (by decide) (by decide) (fun _ => by decide)

/-- C9 counterexample: a valid `pro`-tier request is dispatched and
succeeds, yet `paid_used` is left at its old value — the endpoint
increments no usage counter for non-free tiers. -/
theorem C9_paid_counter_cex :
    (handler "POST" proReq (some sampleUser) sampleNow envSuccess).status = 200 ∧
    (applyWrites sampleUser
        (handler "POST" proReq (some sampleUser) sampleNow envSuccess).writes).paid_used =
      sampleUser.paid_used ∧
    (applyWrites sampleUser
        (handler "POST" proReq (some sampleUser) sampleNow envSuccess).writes).paid_used ≠
      sampleUser.paid_used + 1 :=
  ⟨rfl, rfl, by decide⟩

/-- C9 amended: for every valid creation request on a non-free tier the
quota stage always allows the request (the endpoint never answers 402),
but no usage counter is incremented: the `paid_used` column is never
written, and neither the free-tier increment nor the rollback write
occurs. -/
theorem C9_paid_always_allowed_no_counter (req : GenRequest) (user : UserRow)
    (now : JsDate) (env : GenEnv)
    (hp : promptValid req.prompt = true)
    (hu : truthyOptStr req.userId = true)
    (ht : req.tier.getD "free" ≠ "free") :
    (handler "POST" req (some user) now env).status ≠ 402 ∧
    (applyWrites user (handler "POST" req (some user) now env).writes).paid_used =
      user.paid_used ∧
    (handler "POST" req (some user) now env).writes.countP DbWrite.isIncFree = 0 ∧
    (handler "POST" req (some user) now env).writes.countP DbWrite.isRollback = 0 := by
  refine ⟨?_, applyWrites_paid_used _ user, ?_, ?_⟩ <;>
    (by_cases hr : JsDate.le user.resets_at now <;>
      cases hg : (generateVideo env (req.tier.getD "free")).1 <;>
      simp [handler, hp, hu, ht, hr, hg, DbWrite.isIncFree, DbWrite.isRollback,
        List.countP_append, List.countP_cons])

/-- Witness for the amended C9 at the concrete `pro` request. -/
theorem C9_paid_always_allowed_no_counter_witness :
    (handler "POST" proReq (some sampleUser) sampleNow envSuccess).status ≠ 402 ∧
    (applyWrites sampleUser
        (handler "POST" proReq (some sampleUser) sampleNow envSuccess).writes).paid_used =
      sampleUser.paid_used ∧
    (handler "POST" proReq (some sampleUser) sampleNow envSuccess).writes.countP
        DbWrite.isIncFree = 0 ∧
    (handler "POST" proReq (some sampleUser) sampleNow envSuccess).writes.countP
        DbWrite.isRollback = 0 :=
  C9_paid_always_allowed_no_counter proReq sampleUser sampleNow envSuccess
    (by decide) (by decide) (by decide)

end NeoClip
